import Mathlib

/-!
# Suggestions Umbrella client (package suggestions)

A shallow embedding of `suggestions/suggestions.go`.

Conventions of the embedding:

* a Go multiple return `(v, err)` is a Lean pair; a pointer, interface or slice
  that may be `nil` is an `Option` (`none` is `nil`);
* effects are made explicit: every operation takes the history of observable
  events so far (a `World`) and returns the extended history;
* a run-time panic (nil dereference) is the `Outcome.panicked` result;
* collaborators that live outside `suggestions.go` (`json.Marshal`,
  `commons.NewHttpRequest`, `commons.ValidateEndpoint`, `uuid.NewV4`, the
  `*http.Client`) are parameters.
-/

namespace suggestions

/-! ## Data model -/

/-- A Go byte slice that is known to be non-nil. -/
abbrev Bytes := List UInt8

/-- A Go `error` value, observed through its `Error()` text. -/
structure GoError where
  Error : String
  deriving DecidableEq, Repr

/-- Go `errors.New`. -/
def errors.New (text : String) : GoError := ⟨text⟩

/-- Go `fmt.Sprintf("%v", n)` for an `int`: the decimal rendering of `n`. -/
def fmt.verbInt (n : Int) : String := toString n

/-- Go `fmt.Sprintf("%v", err)` for a non-nil `error`: its `Error()` text. -/
def fmt.verbError (err : GoError) : String := err.Error

/-- A caller-supplied `context.Context`, identified by a token. -/
structure Context where
  id : Nat
  deriving DecidableEq, Repr

/-- Modelled from the spec: the type `draft.Content` is declared outside
`suggestions.go`; the spec gives it the four string attributes `UUID`, `Body`,
`Title` and `Byline`. -/
structure Content where
  UUID : String
  Body : String := ""
  Title : String := ""
  Byline : String := ""
  deriving DecidableEq, Repr

/-- Go `http.Header`, a map from (canonical) header names to their values. -/
abbrev Header := List (String × List String)

/-- The method `http.Header.Set` on a key in canonical form: the key is bound
to the single value, replacing whatever it was bound to. -/
def Header.Set (h : Header) (key value : String) : Header :=
  (key, [value]) :: h.filter (fun kv => kv.1 != key)

/-- The method `http.Header.Get` on a key in canonical form: the first value
bound to the key, or the empty string. -/
def Header.Get (h : Header) (key : String) : String :=
  match h.lookup key with
  | some (v :: _) => v
  | _ => ""

/-- The parts of an `http.Request` this package touches. -/
structure Request where
  ctx : Context
  Method : String
  URL : String
  Header : Header
  Body : Bytes
  deriving DecidableEq, Repr

/-- A response body (`io.ReadCloser`): the chunks its successive `Read` calls
deliver, and how the stream ends (`none` is a clean `io.EOF`, `some e` a read
failure after the chunks). The `id` tells bodies apart in the event history. -/
structure ReadCloser where
  id : Nat
  chunks : List Bytes
  failure : Option GoError
  deriving DecidableEq, Repr

/-- The whole content of a body: all the chunks in order. -/
def ReadCloser.content (r : ReadCloser) : Bytes := r.chunks.flatten

/-- The parts of an `http.Response` this package touches. -/
structure Response where
  StatusCode : Int
  Body : ReadCloser
  deriving DecidableEq, Repr

/-- Observable effects, in the order they happen. -/
inductive Event where
  /-- A request was executed by the transport (`http.Client.Do`). -/
  | roundTrip (request : Request)
  /-- The body with this id was read to its end (`ioutil.ReadAll`). -/
  | readAll (body : Nat)
  /-- The body with this id was closed (`Body.Close`). -/
  | close (body : Nat)
  /-- A random UUID was drawn (`uuid.NewV4`). -/
  | newV4 (uuid : String)
  deriving DecidableEq, Repr

/-- The history of effects so far. -/
abbrev World := List Event

/-- The transport, `*http.Client` when non-nil: what `Do` answers for a
request, given everything that happened before. -/
structure HttpClient where
  Do : World → Request → Option Response × Option GoError

/-- How a call ends: it returns to its caller, or it panics. -/
inductive Outcome (α : Type) where
  | returned (value : α)
  | panicked (reason : String)
  deriving DecidableEq, Repr

/-- The collaborators of the package that are not part of `suggestions.go`. -/
structure Env where
  /-- Go `json.Marshal` applied to a `*draft.Content`. -/
  Marshal : Option Content → Bytes × Option GoError
  /-- The helper `commons.NewHttpRequest(ctx, method, url, body)`. -/
  NewHttpRequest : Context → String → String → Bytes → Option Request × Option GoError
  /-- The helper `commons.ValidateEndpoint(endpoint)`. -/
  ValidateEndpoint : String → Option GoError
  /-- The text of the UUID that `uuid.NewV4()` draws after a given history. -/
  NewV4 : World → String

/-- Go `http.MethodPost`. -/
def MethodPost : String := "POST"

/-- Go `http.StatusOK`. -/
def StatusOK : Int := 200

/-- The reason of a nil-pointer panic. -/
def nilDereference : String :=
  "runtime error: invalid memory address or nil pointer dereference"

/-- The accumulation loop of `ioutil.ReadAll`: every chunk read is appended to
the buffer. -/
def ioutil.readAllLoop (buf : Bytes) : List Bytes → Bytes
  | [] => buf
  | chunk :: rest => ioutil.readAllLoop (buf ++ chunk) rest

/-- Go `ioutil.ReadAll`: the bytes read until the stream ended, always a
non-nil slice, and the read failure if the stream did not end in `io.EOF`. -/
def ioutil.ReadAll (r : ReadCloser) : Bytes × Option GoError :=
  (ioutil.readAllLoop [] r.chunks, r.failure)

/-! ## The client -/

/-- The struct `umbrellaAPI`. -/
structure umbrellaAPI where
  endpoint : String
  apiKey : String
  httpClient : Option HttpClient

/-- The method `(u *umbrellaAPI) IsValid`. -/
def umbrellaAPI.IsValid (env : Env) (u : umbrellaAPI) : Option GoError :=
  env.ValidateEndpoint u.endpoint

/-- The method `(u *umbrellaAPI) Endpoint`. -/
def umbrellaAPI.Endpoint (u : umbrellaAPI) : String :=
  u.endpoint

/-- The function `NewUmbrellaAPI`. -/
def NewUmbrellaAPI (env : Env) (endpoint apiKey : String) (httpClient : Option HttpClient)
    (w : World) : (Option umbrellaAPI × Option GoError) × World :=
  let u : umbrellaAPI := ⟨endpoint, apiKey, httpClient⟩
  match u.IsValid env with
  | some err => ((none, some err), w)
  | none => ((some u, none), w)

/-- Lines 68-80 of `FetchSuggestions`: what runs between the registration of
the deferred `response.Body.Close()` and the return. -/
def umbrellaAPI.handleResponse (response : Response) (w : World) :
    Outcome (Option Bytes × Option GoError) × World :=
  if response.StatusCode ≠ StatusOK then
    (.returned (none, some (errors.New
      ("Suggestions Umbrella endpoint fails with response code: " ++
        fmt.verbInt response.StatusCode))), w)
  else
    let read := ioutil.ReadAll response.Body
    let w1 := w ++ [Event.readAll response.Body.id]
    match read.2 with
    | some err =>
      (.returned (none, some (errors.New
        ("Failed reading the response body from Suggestions Umbrella endpoint " ++
          fmt.verbError err))), w1)
    | none => (.returned (some read.1, none), w1)

/-- The method `(u *umbrellaAPI) FetchSuggestions`. -/
def umbrellaAPI.FetchSuggestions (env : Env) (u : umbrellaAPI) (ctx : Context)
    (content : Option Content) (w : World) :
    Outcome (Option Bytes × Option GoError) × World :=
  match env.Marshal content with
  | (_, some err) => (.returned (none, some err), w)
  | (jsonBytes, none) =>
    match env.NewHttpRequest ctx MethodPost u.endpoint jsonBytes with
    -- line 54 dereferences `request` before `err` is looked at
    | (none, _) => (.panicked nilDereference, w)
    | (some built, err) =>
      let request : Request := { built with Header := built.Header.Set "X-Api-Key" u.apiKey }
      match err with
      | some err => (.returned (none, some err), w)
      | none =>
        match u.httpClient with
        | none => (.panicked nilDereference, w)
        | some client =>
          let w1 := w ++ [Event.roundTrip request]
          match client.Do w request with
          | (_, some err) => (.returned (none, some err), w1)
          | (none, none) => (.panicked nilDereference, w1)
          | (some response, none) =>
            -- `defer response.Body.Close()` runs after the rest, on every exit
            let rest := umbrellaAPI.handleResponse response w1
            (rest.1, rest.2 ++ [Event.close response.Body.id])

/-- The method `(u *umbrellaAPI) IsHealthy`. -/
def umbrellaAPI.IsHealthy (env : Env) (u : umbrellaAPI) (ctx : Context) (w : World) :
    Outcome (String × Option GoError) × World :=
  let newUUID := env.NewV4 w
  let w1 := w ++ [Event.newV4 newUUID]
  let c : Content := { UUID := newUUID }
  match u.FetchSuggestions env ctx (some c) w1 with
  | (.panicked reason, w2) => (.panicked reason, w2)
  | (.returned (_, some err), w2) => (.returned ("", some err), w2)
  | (.returned (_, none), w2) => (.returned ("suggestions umbrella service is healthy", none), w2)

/-- Modelled from the spec: `commons.NewHttpRequest` is declared outside
`suggestions.go`. The spec describes it as a utility that, given a context, a
method, a URL and a body, returns a decorated request object or an error, the
decoration being system-standard tracing headers. What it rejects and which
tracing headers it adds are parameters. -/
def commons.NewHttpRequest (reject : Context → String → String → Option GoError)
    (tracing : Context → Header) (ctx : Context) (method url : String) (body : Bytes) :
    Option Request × Option GoError :=
  match reject ctx method url with
  | some err => (none, some err)
  | none => (some ⟨ctx, method, url, tracing ctx, body⟩, none)

/-- The requests executed by the transport in a history, in order. -/
def roundTrips : World → List Request
  | [] => []
  | Event.roundTrip r :: rest => r :: roundTrips rest
  | _ :: rest => roundTrips rest

/-! ## Concrete collaborators

A small concrete world on which the definitions can be evaluated. -/

/-- A stand-in serializer: every content, and the nil pointer too, is rendered
as the two bytes of an empty JSON object. -/
def exampleMarshal (_ : Option Content) : Bytes × Option GoError := ([123, 125], none)

/-- A request builder check in the manner of `net/url`: a URL that starts with
a colon has no protocol scheme. -/
def exampleReject (_ : Context) (_ : String) (url : String) : Option GoError :=
  match url.data with
  | ':' :: _ => some ⟨"missing protocol scheme"⟩
  | _ => none

/-- One tracing header, whatever the context. -/
def exampleTracing (_ : Context) : Header := [("X-Request-Id", ["tid_example"])]

/-- An endpoint check that rejects the empty string only. -/
def exampleValidate (endpoint : String) : Option GoError :=
  match endpoint.data with
  | [] => some ⟨"missing endpoint"⟩
  | _ => none

def exampleEnv : Env where
  Marshal := exampleMarshal
  NewHttpRequest := commons.NewHttpRequest exampleReject exampleTracing
  ValidateEndpoint := exampleValidate
  NewV4 := fun _ => "6ba7b810-9dad-41d1-80b4-00c04fd430c8"

/-- A transport whose server always answers with the given status and body. -/
def serverAnswering (status : Int) (body : ReadCloser) : HttpClient where
  Do := fun _ _ => (some ⟨status, body⟩, none)

/-- A transport that cannot connect. -/
def refusingClient : HttpClient where
  Do := fun _ _ => (none, some ⟨"dial tcp: connection refused"⟩)

def exampleContext : Context := ⟨0⟩

def exampleContent : Content where
  UUID := "9d5e441e-0b02-11e8-8eb7-42f857ea9f0"
  Title := "Wall Street stocks"

def exampleEndpoint : String := "https://example.com/content/suggest"

/-- The client the tests build: a valid endpoint, the key 12345. -/
def exampleClient (transport : HttpClient) : umbrellaAPI :=
  ⟨exampleEndpoint, "12345", some transport⟩

/-- The request the example client hands to its transport. -/
def exampleRequest : Request where
  ctx := exampleContext
  Method := "POST"
  URL := exampleEndpoint
  Header := [("X-Api-Key", ["12345"]), ("X-Request-Id", ["tid_example"])]
  Body := [123, 125]

/-- A body of two chunks, eighteen bytes in all (the text of an empty suggestions
object), that ends cleanly. -/
def suggestionsBody : ReadCloser where
  id := 1
  chunks := [[123, 34, 115, 117, 103, 103, 101, 115], [116, 105, 111, 110, 115, 34, 58, 91, 93, 125]]
  failure := none

/-- A body that ends at once: no bytes at all. -/
def emptyBody : ReadCloser where
  id := 2
  chunks := []
  failure := none

/-- A body that delivers one chunk and then fails. -/
def brokenBody : ReadCloser where
  id := 3
  chunks := [[123, 34, 115]]
  failure := some ⟨"unexpected EOF"⟩

/-! ## Auxiliary facts -/

theorem readAllLoop_eq (buf : Bytes) (chunks : List Bytes) :
    ioutil.readAllLoop buf chunks = buf ++ chunks.flatten := by
  induction chunks generalizing buf with
  | nil => simp [ioutil.readAllLoop]
  | cons c rest ih => simp [ioutil.readAllLoop, ih]

theorem ReadAll_data (r : ReadCloser) : (ioutil.ReadAll r).1 = r.content := by
  simp [ioutil.ReadAll, ReadCloser.content, readAllLoop_eq]

theorem ReadAll_err (r : ReadCloser) : (ioutil.ReadAll r).2 = r.failure := rfl

theorem Header_Get_Set (h : Header) (key value : String) : (h.Set key value).Get key = value := by
  simp [Header.Set, Header.Get, List.lookup]

/-- The response handling never pairs an error with a result. -/
theorem handleResponse_error_nil (response : Response) (w : World) (result : Option Bytes)
    (err : GoError) (w' : World)
    (h : umbrellaAPI.handleResponse response w = (.returned (result, some err), w')) :
    result = none := by
  unfold umbrellaAPI.handleResponse at h
  by_cases hs : response.StatusCode = StatusOK
  · rcases hf : (ioutil.ReadAll response.Body).2 with _ | e
    · simp [hs, hf] at h
    · simp only [hs, hf, ne_eq, not_true_eq_false, if_false, Prod.mk.injEq,
        Outcome.returned.injEq] at h
      exact h.1.1.symm
  · simp only [hs, ne_eq, not_false_eq_true, if_true, Prod.mk.injEq,
      Outcome.returned.injEq] at h
    exact h.1.1.symm

/-- Once the transport has answered with a response and no error, the call is
the response handling followed by the deferred close. -/
theorem FetchSuggestions_of_response (env : Env) (u : umbrellaAPI) (ctx : Context)
    (content : Option Content) (w : World) (jsonBytes : Bytes) (built : Request)
    (client : HttpClient) (response : Response)
    (hmarshal : env.Marshal content = (jsonBytes, none))
    (hbuild : env.NewHttpRequest ctx MethodPost u.endpoint jsonBytes = (some built, none))
    (hclient : u.httpClient = some client)
    (hdo : client.Do w { built with Header := built.Header.Set "X-Api-Key" u.apiKey }
      = (some response, none)) :
    u.FetchSuggestions env ctx content w =
      ((umbrellaAPI.handleResponse response
          (w ++ [Event.roundTrip { built with Header := built.Header.Set "X-Api-Key" u.apiKey }])).1,
       (umbrellaAPI.handleResponse response
          (w ++ [Event.roundTrip { built with Header := built.Header.Set "X-Api-Key" u.apiKey }])).2
        ++ [Event.close response.Body.id]) := by
  simp only [umbrellaAPI.FetchSuggestions, hmarshal, hbuild, hclient, hdo]

/-! ## Non-200 responses -/

/-- C1: when the transport answers with a response whose status code is not
200, FetchSuggestions returns a nil result and a non-nil error; the error text
is the fixed message followed by the decimal rendering of the status code, so it
contains that rendering. -/
theorem FetchSuggestions_status_not_ok (env : Env) (u : umbrellaAPI) (ctx : Context)
    (content : Option Content) (w : World) (jsonBytes : Bytes) (built : Request)
    (client : HttpClient) (response : Response)
    (hmarshal : env.Marshal content = (jsonBytes, none))
    (hbuild : env.NewHttpRequest ctx MethodPost u.endpoint jsonBytes = (some built, none))
    (hclient : u.httpClient = some client)
    (hdo : client.Do w { built with Header := built.Header.Set "X-Api-Key" u.apiKey }
      = (some response, none))
    (hstatus : response.StatusCode ≠ 200) :
    ∃ err w', u.FetchSuggestions env ctx content w = (.returned (none, some err), w') ∧
      err.Error = "Suggestions Umbrella endpoint fails with response code: "
        ++ toString response.StatusCode ∧
      (toString response.StatusCode).data <:+: err.Error.data := by
  refine ⟨errors.New ("Suggestions Umbrella endpoint fails with response code: "
    ++ toString response.StatusCode),
    w ++ [Event.roundTrip { built with Header := built.Header.Set "X-Api-Key" u.apiKey }]
      ++ [Event.close response.Body.id], ?_, rfl, ?_⟩
  · rw [FetchSuggestions_of_response env u ctx content w jsonBytes built client response
      hmarshal hbuild hclient hdo]
    simp [umbrellaAPI.handleResponse, StatusOK, hstatus, fmt.verbInt]
  · simp only [errors.New, String.data_append]
    exact (List.suffix_append _ _).isInfix

/-- Witness of C1: a server answering 503 makes the call fail with a message
that contains the text 503. -/
theorem FetchSuggestions_status_not_ok_witness :
    ∃ err w', (exampleClient (serverAnswering 503 emptyBody)).FetchSuggestions exampleEnv
        exampleContext (some exampleContent) [] = (.returned (none, some err), w') ∧
      err.Error = "Suggestions Umbrella endpoint fails with response code: "
        ++ toString (503 : Int) ∧
      "503".data <:+: err.Error.data :=
  FetchSuggestions_status_not_ok exampleEnv (exampleClient (serverAnswering 503 emptyBody))
    exampleContext (some exampleContent) [] [123, 125]
    ⟨exampleContext, "POST", exampleEndpoint, exampleTracing exampleContext, [123, 125]⟩
    (serverAnswering 503 emptyBody) ⟨503, emptyBody⟩ rfl rfl rfl rfl (by decide)

/-! ## Successful exchanges -/

/-- C2: when serialization and request construction succeed, the transport
answers with status 200 and the body is read to its end without error,
FetchSuggestions returns a nil error and a result equal, byte for byte, to the
content of the response body. -/
theorem FetchSuggestions_returns_body (env : Env) (u : umbrellaAPI) (ctx : Context)
    (content : Option Content) (w : World) (jsonBytes : Bytes) (built : Request)
    (client : HttpClient) (response : Response)
    (hmarshal : env.Marshal content = (jsonBytes, none))
    (hbuild : env.NewHttpRequest ctx MethodPost u.endpoint jsonBytes = (some built, none))
    (hclient : u.httpClient = some client)
    (hdo : client.Do w { built with Header := built.Header.Set "X-Api-Key" u.apiKey }
      = (some response, none))
    (hstatus : response.StatusCode = 200)
    (hread : response.Body.failure = none) :
    ∃ w', u.FetchSuggestions env ctx content w
      = (.returned (some response.Body.content, none), w') := by
  refine ⟨w ++ [Event.roundTrip { built with Header := built.Header.Set "X-Api-Key" u.apiKey }]
      ++ [Event.readAll response.Body.id] ++ [Event.close response.Body.id], ?_⟩
  rw [FetchSuggestions_of_response env u ctx content w jsonBytes built client response
      hmarshal hbuild hclient hdo]
  simp [umbrellaAPI.handleResponse, StatusOK, hstatus, ReadAll_err, ReadAll_data, hread]

/-- Witness of C2: a server answering 200 with a body delivered in two chunks;
the call returns the eighteen bytes of the body in order. -/
theorem FetchSuggestions_returns_body_witness :
    ∃ w', (exampleClient (serverAnswering 200 suggestionsBody)).FetchSuggestions exampleEnv
        exampleContext (some exampleContent) []
      = (.returned (some [123, 34, 115, 117, 103, 103, 101, 115,
          116, 105, 111, 110, 115, 34, 58, 91, 93, 125], none), w') :=
  FetchSuggestions_returns_body exampleEnv (exampleClient (serverAnswering 200 suggestionsBody))
    exampleContext (some exampleContent) [] [123, 125]
    ⟨exampleContext, "POST", exampleEndpoint, exampleTracing exampleContext, [123, 125]⟩
    (serverAnswering 200 suggestionsBody) ⟨200, suggestionsBody⟩ rfl rfl rfl rfl rfl rfl

/-- C3 as stated fails: the content serializes, the server answers 200 and the
body is read without error, yet the result is the empty byte slice, because the
body has no bytes. -/
theorem FetchSuggestions_empty_result :
    exampleEnv.Marshal (some exampleContent) = ([123, 125], none) ∧
    (serverAnswering 200 emptyBody).Do [] exampleRequest = (some ⟨200, emptyBody⟩, none) ∧
    (ioutil.ReadAll emptyBody).2 = none ∧
    (exampleClient (serverAnswering 200 emptyBody)).FetchSuggestions exampleEnv
        exampleContext (some exampleContent) []
      = (.returned (some [], none),
          [Event.roundTrip exampleRequest, Event.readAll 2, Event.close 2]) ∧
    ¬ ∃ result w', (exampleClient (serverAnswering 200 emptyBody)).FetchSuggestions exampleEnv
        exampleContext (some exampleContent) [] = (.returned (some result, none), w') ∧
      result ≠ [] := by
  have hrun : (exampleClient (serverAnswering 200 emptyBody)).FetchSuggestions exampleEnv
        exampleContext (some exampleContent) []
      = (.returned (some [], none),
          [Event.roundTrip exampleRequest, Event.readAll 2, Event.close 2]) := by
    decide
  refine ⟨rfl, rfl, rfl, hrun, ?_⟩
  rintro ⟨result, w', h, hne⟩
  rw [hrun] at h
  simp only [Prod.mk.injEq, Outcome.returned.injEq, Option.some.injEq] at h
  exact hne h.1.1.symm

/-- C3, amended: for a content that serializes, a successful exchange (status
200, body read without error) makes FetchSuggestions return a nil error and a
non-nil result; the result is the content of the response body, byte for byte,
and so it is empty exactly when the body has no bytes. -/
theorem FetchSuggestions_result_not_nil (env : Env) (u : umbrellaAPI) (ctx : Context)
    (content : Option Content) (w : World) (jsonBytes : Bytes) (built : Request)
    (client : HttpClient) (response : Response)
    (hmarshal : env.Marshal content = (jsonBytes, none))
    (hbuild : env.NewHttpRequest ctx MethodPost u.endpoint jsonBytes = (some built, none))
    (hclient : u.httpClient = some client)
    (hdo : client.Do w { built with Header := built.Header.Set "X-Api-Key" u.apiKey }
      = (some response, none))
    (hstatus : response.StatusCode = 200)
    (hread : response.Body.failure = none) :
    ∃ result w', u.FetchSuggestions env ctx content w = (.returned (some result, none), w') ∧
      result = response.Body.content ∧
      (result = [] ↔ ∀ chunk ∈ response.Body.chunks, chunk = []) := by
  refine ⟨response.Body.content,
    w ++ [Event.roundTrip { built with Header := built.Header.Set "X-Api-Key" u.apiKey }]
      ++ [Event.readAll response.Body.id] ++ [Event.close response.Body.id], ?_, rfl, ?_⟩
  · rw [FetchSuggestions_of_response env u ctx content w jsonBytes built client response
      hmarshal hbuild hclient hdo]
    simp [umbrellaAPI.handleResponse, StatusOK, hstatus, ReadAll_err, ReadAll_data, hread]
  · simp [ReadCloser.content]

/-- Witness of C3, amended: the two-chunk body gives a non-nil result, the
eighteen bytes of the body. -/
theorem FetchSuggestions_result_not_nil_witness :
    ∃ result w', (exampleClient (serverAnswering 200 suggestionsBody)).FetchSuggestions exampleEnv
        exampleContext (some exampleContent) [] = (.returned (some result, none), w') ∧
      result = [123, 34, 115, 117, 103, 103, 101, 115,
        116, 105, 111, 110, 115, 34, 58, 91, 93, 125] ∧
      (result = [] ↔ ∀ chunk ∈ suggestionsBody.chunks, chunk = []) :=
  FetchSuggestions_result_not_nil exampleEnv (exampleClient (serverAnswering 200 suggestionsBody))
    exampleContext (some exampleContent) [] [123, 125]
    ⟨exampleContext, "POST", exampleEndpoint, exampleTracing exampleContext, [123, 125]⟩
    (serverAnswering 200 suggestionsBody) ⟨200, suggestionsBody⟩ rfl rfl rfl rfl rfl rfl

/-! ## Failures before and during the exchange -/

/-- C4, the code at a failing input: with a builder that answers a nil request
and an error for an endpoint without scheme, FetchSuggestions does not return
the error; it panics on the nil request, before the transport is reached. -/
theorem FetchSuggestions_nil_request_panics :
    exampleEnv.NewHttpRequest exampleContext MethodPost ":" [123, 125]
      = (none, some ⟨"missing protocol scheme"⟩) ∧
    umbrellaAPI.FetchSuggestions exampleEnv ⟨":", "12345", some refusingClient⟩
        exampleContext (some exampleContent) []
      = (.panicked nilDereference, []) := by
  constructor <;> decide

/-- C7: when the transport fails to execute the request, FetchSuggestions
returns a nil result and the very error of the transport; the history gains the
one request and nothing else: no body is read or closed. -/
theorem FetchSuggestions_transport_failure (env : Env) (u : umbrellaAPI) (ctx : Context)
    (content : Option Content) (w : World) (jsonBytes : Bytes) (built : Request)
    (client : HttpClient) (response : Option Response) (cause : GoError)
    (hmarshal : env.Marshal content = (jsonBytes, none))
    (hbuild : env.NewHttpRequest ctx MethodPost u.endpoint jsonBytes = (some built, none))
    (hclient : u.httpClient = some client)
    (hdo : client.Do w { built with Header := built.Header.Set "X-Api-Key" u.apiKey }
      = (response, some cause)) :
    u.FetchSuggestions env ctx content w
      = (.returned (none, some cause),
         w ++ [Event.roundTrip { built with Header := built.Header.Set "X-Api-Key" u.apiKey }]) := by
  simp only [umbrellaAPI.FetchSuggestions, hmarshal, hbuild, hclient, hdo]

/-- Witness of C7: a transport that cannot connect. -/
theorem FetchSuggestions_transport_failure_witness :
    (exampleClient refusingClient).FetchSuggestions exampleEnv exampleContext
        (some exampleContent) []
      = (.returned (none, some ⟨"dial tcp: connection refused"⟩),
         [Event.roundTrip exampleRequest]) :=
  FetchSuggestions_transport_failure exampleEnv (exampleClient refusingClient)
    exampleContext (some exampleContent) [] [123, 125]
    ⟨exampleContext, "POST", exampleEndpoint, exampleTracing exampleContext, [123, 125]⟩
    refusingClient none ⟨"dial tcp: connection refused"⟩ rfl rfl rfl rfl

/-- C8: whenever FetchSuggestions returns with a non-nil error, the result is
nil. In particular, when reading a status-200 body fails, whatever was read
before, the result is nil and the error text is the fixed message followed by
the text of the read failure, so it contains that text. -/
theorem FetchSuggestions_no_partial_result (env : Env) (u : umbrellaAPI) (ctx : Context)
    (content : Option Content) (w : World) :
    (∀ result err w', u.FetchSuggestions env ctx content w
        = (.returned (result, some err), w') → result = none) ∧
    (∀ jsonBytes built client response cause,
      env.Marshal content = (jsonBytes, none) →
      env.NewHttpRequest ctx MethodPost u.endpoint jsonBytes = (some built, none) →
      u.httpClient = some client →
      client.Do w { built with Header := built.Header.Set "X-Api-Key" u.apiKey }
        = (some response, none) →
      response.StatusCode = 200 →
      response.Body.failure = some cause →
      ∃ err w', u.FetchSuggestions env ctx content w = (.returned (none, some err), w') ∧
        err.Error = "Failed reading the response body from Suggestions Umbrella endpoint "
          ++ cause.Error ∧
        cause.Error.data <:+: err.Error.data) := by
  constructor
  · intro result err w' h
    unfold umbrellaAPI.FetchSuggestions at h
    rcases hm : env.Marshal content with ⟨jsonBytes, _ | e⟩
    · rcases hb : env.NewHttpRequest ctx MethodPost u.endpoint jsonBytes with ⟨_ | built, _ | e⟩
      · simp [hm, hb] at h
      · simp [hm, hb] at h
      · rcases hc : u.httpClient with _ | client
        · simp [hm, hb, hc] at h
        · rcases hd : client.Do w { built with Header := built.Header.Set "X-Api-Key" u.apiKey }
            with ⟨_ | response, _ | e⟩
          · simp [hm, hb, hc, hd] at h
          · simp only [hm, hb, hc, hd, Prod.mk.injEq, Outcome.returned.injEq] at h
            exact h.1.1.symm
          · simp only [hm, hb, hc, hd, Prod.mk.injEq] at h
            exact handleResponse_error_nil response _ result err _ (Prod.ext h.1 rfl)
          · simp only [hm, hb, hc, hd, Prod.mk.injEq, Outcome.returned.injEq] at h
            exact h.1.1.symm
      · simp only [hm, hb, Prod.mk.injEq, Outcome.returned.injEq] at h
        exact h.1.1.symm
    · simp only [hm, Prod.mk.injEq, Outcome.returned.injEq] at h
      exact h.1.1.symm
  · intro jsonBytes built client response cause hmarshal hbuild hclient hdo hstatus hread
    refine ⟨errors.New ("Failed reading the response body from Suggestions Umbrella endpoint "
        ++ cause.Error),
      w ++ [Event.roundTrip { built with Header := built.Header.Set "X-Api-Key" u.apiKey }]
        ++ [Event.readAll response.Body.id] ++ [Event.close response.Body.id], ?_, rfl, ?_⟩
    · rw [FetchSuggestions_of_response env u ctx content w jsonBytes built client response
        hmarshal hbuild hclient hdo]
      simp [umbrellaAPI.handleResponse, StatusOK, hstatus, ReadAll_err, hread, fmt.verbError]
    · simp only [errors.New, String.data_append]
      exact (List.suffix_append _ _).isInfix

/-- Witness of C8: a status-200 body that fails after a chunk of three bytes;
the three bytes are not returned. -/
theorem FetchSuggestions_no_partial_result_witness :
    (ioutil.ReadAll brokenBody).1 = [123, 34, 115] ∧
    ∃ err w', (exampleClient (serverAnswering 200 brokenBody)).FetchSuggestions exampleEnv
        exampleContext (some exampleContent) [] = (.returned (none, some err), w') ∧
      err.Error = "Failed reading the response body from Suggestions Umbrella endpoint "
        ++ "unexpected EOF" ∧
      "unexpected EOF".data <:+: err.Error.data :=
  ⟨rfl, (FetchSuggestions_no_partial_result exampleEnv
    (exampleClient (serverAnswering 200 brokenBody)) exampleContext (some exampleContent) []).2
    [123, 125]
    ⟨exampleContext, "POST", exampleEndpoint, exampleTracing exampleContext, [123, 125]⟩
    (serverAnswering 200 brokenBody) ⟨200, brokenBody⟩ ⟨"unexpected EOF"⟩
    rfl rfl rfl rfl rfl rfl⟩

/-! ## Construction -/

/-- C5: NewUmbrellaAPI returns an error exactly when the endpoint validation
rejects the endpoint; then the client is nil and the error is the one of the
validator; otherwise the error is nil and the client is the one configured
with the three arguments. Either way the history is unchanged: the transport
is not invoked. -/
theorem NewUmbrellaAPI_spec (env : Env) (endpoint apiKey : String)
    (httpClient : Option HttpClient) (w : World) :
    ((NewUmbrellaAPI env endpoint apiKey httpClient w).1.2 ≠ none
      ↔ env.ValidateEndpoint endpoint ≠ none) ∧
    (∀ err, env.ValidateEndpoint endpoint = some err →
      (NewUmbrellaAPI env endpoint apiKey httpClient w).1 = (none, some err)) ∧
    (env.ValidateEndpoint endpoint = none →
      (NewUmbrellaAPI env endpoint apiKey httpClient w).1
        = (some ⟨endpoint, apiKey, httpClient⟩, none)) ∧
    (NewUmbrellaAPI env endpoint apiKey httpClient w).2 = w ∧
    roundTrips (NewUmbrellaAPI env endpoint apiKey httpClient w).2 = roundTrips w := by
  unfold NewUmbrellaAPI umbrellaAPI.IsValid
  rcases h : env.ValidateEndpoint endpoint with _ | e <;> simp [h]

/-- Witness of C5: the empty endpoint is rejected with the error of the
validator, a well-formed one gives a client. -/
theorem NewUmbrellaAPI_spec_witness :
    (NewUmbrellaAPI exampleEnv "" "12345" (some refusingClient) []).1
      = (none, some ⟨"missing endpoint"⟩) ∧
    (NewUmbrellaAPI exampleEnv exampleEndpoint "12345" (some refusingClient) []).1
      = (some ⟨exampleEndpoint, "12345", some refusingClient⟩, none) :=
  ⟨(NewUmbrellaAPI_spec exampleEnv "" "12345" (some refusingClient) []).2.1 _ rfl,
   (NewUmbrellaAPI_spec exampleEnv exampleEndpoint "12345" (some refusingClient) []).2.2.1 rfl⟩

/-! ## Health check -/

/-- C6: IsHealthy draws a UUID and calls FetchSuggestions on the content that
has this UUID and no other field set. It returns the fixed status string with a
nil error if and only if that call returns a nil error; when that call returns
an error, IsHealthy returns the empty string with the same error; when that
call panics, so does IsHealthy. The effects of IsHealthy are the draw followed
by those of the call. -/
theorem IsHealthy_spec (env : Env) (u : umbrellaAPI) (ctx : Context) (w : World) :
    ((u.IsHealthy env ctx w).1 = .returned ("suggestions umbrella service is healthy", none)
      ↔ ∃ result, (u.FetchSuggestions env ctx (some ⟨env.NewV4 w, "", "", ""⟩)
          (w ++ [Event.newV4 (env.NewV4 w)])).1 = .returned (result, none)) ∧
    (∀ result err, (u.FetchSuggestions env ctx (some ⟨env.NewV4 w, "", "", ""⟩)
          (w ++ [Event.newV4 (env.NewV4 w)])).1 = .returned (result, some err) →
      (u.IsHealthy env ctx w).1 = .returned ("", some err)) ∧
    (∀ status, (u.IsHealthy env ctx w).1 = .returned (status, none) →
      status = "suggestions umbrella service is healthy") ∧
    (∀ reason, (u.FetchSuggestions env ctx (some ⟨env.NewV4 w, "", "", ""⟩)
          (w ++ [Event.newV4 (env.NewV4 w)])).1 = .panicked reason →
      (u.IsHealthy env ctx w).1 = .panicked reason) ∧
    (u.IsHealthy env ctx w).2 = (u.FetchSuggestions env ctx (some ⟨env.NewV4 w, "", "", ""⟩)
          (w ++ [Event.newV4 (env.NewV4 w)])).2 := by
  unfold umbrellaAPI.IsHealthy
  rcases h : u.FetchSuggestions env ctx (some ⟨env.NewV4 w, "", "", ""⟩)
      (w ++ [Event.newV4 (env.NewV4 w)]) with ⟨_ | reason, w2⟩
  · rename_i value
    rcases value with ⟨result, _ | err⟩
    · simp [h]
    · simp [h]
  · simp [h]

/-- Witness of C6: against a server answering 503 the health check returns the
empty string and the error of the call; against one answering 200 it returns
the status string. -/
theorem IsHealthy_spec_witness :
    ((exampleClient (serverAnswering 503 emptyBody)).IsHealthy exampleEnv exampleContext []).1
      = .returned ("", some ⟨"Suggestions Umbrella endpoint fails with response code: 503"⟩) ∧
    ((exampleClient (serverAnswering 200 suggestionsBody)).IsHealthy exampleEnv exampleContext []).1
      = .returned ("suggestions umbrella service is healthy", none) :=
  ⟨(IsHealthy_spec exampleEnv (exampleClient (serverAnswering 503 emptyBody))
      exampleContext []).2.1 none _ (by decide),
   (IsHealthy_spec exampleEnv (exampleClient (serverAnswering 200 suggestionsBody))
      exampleContext []).1.2
      ⟨some [123, 34, 115, 117, 103, 103, 101, 115, 116, 105, 111, 110, 115, 34, 58, 91, 93, 125],
        by decide⟩⟩

/-! ## The request handed to the transport -/

/-- C9: with the request builder as the spec describes it, and a content that
serializes, FetchSuggestions executes the transport at most once, and exactly
once when the builder accepts and there is a transport; every request it hands
over has method POST, the endpoint of the client as URL, the API key of the
client under X-Api-Key, the serialized content as body, and the context of the
caller. -/
theorem FetchSuggestions_request (env : Env)
    (reject : Context → String → String → Option GoError) (tracing : Context → Header)
    (u : umbrellaAPI) (ctx : Context) (content : Option Content) (w : World)
    (jsonBytes : Bytes)
    (hbuilder : env.NewHttpRequest = commons.NewHttpRequest reject tracing)
    (hmarshal : env.Marshal content = (jsonBytes, none)) :
    ∃ events, (u.FetchSuggestions env ctx content w).2 = w ++ events ∧
      (roundTrips events).length ≤ 1 ∧
      (∀ request ∈ roundTrips events,
        request.Method = "POST" ∧ request.URL = u.endpoint ∧
        request.Header.Get "X-Api-Key" = u.apiKey ∧ request.Body = jsonBytes ∧
        request.ctx = ctx) ∧
      (reject ctx "POST" u.endpoint = none → u.httpClient ≠ none →
        (roundTrips events).length = 1) := by
  unfold umbrellaAPI.FetchSuggestions
  simp only [hmarshal, hbuilder, commons.NewHttpRequest, MethodPost]
  rcases hr : reject ctx "POST" u.endpoint with _ | e
  · rcases hc : u.httpClient with _ | client
    · exact ⟨[], by simp [roundTrips]⟩
    · simp only []
      rcases hd : client.Do w ⟨ctx, "POST", u.endpoint, (tracing ctx).Set "X-Api-Key" u.apiKey,
          jsonBytes⟩ with ⟨_ | response, _ | e⟩
      · exact ⟨[Event.roundTrip ⟨ctx, "POST", u.endpoint,
          (tracing ctx).Set "X-Api-Key" u.apiKey, jsonBytes⟩],
          by simp [roundTrips, Header_Get_Set]⟩
      · exact ⟨[Event.roundTrip ⟨ctx, "POST", u.endpoint,
          (tracing ctx).Set "X-Api-Key" u.apiKey, jsonBytes⟩],
          by simp [roundTrips, Header_Get_Set]⟩
      · by_cases hs : response.StatusCode = StatusOK
        · rcases hf : (ioutil.ReadAll response.Body).2 with _ | e
          · exact ⟨[Event.roundTrip ⟨ctx, "POST", u.endpoint,
              (tracing ctx).Set "X-Api-Key" u.apiKey, jsonBytes⟩,
              Event.readAll response.Body.id, Event.close response.Body.id],
              by simp [umbrellaAPI.handleResponse, hs, hf, roundTrips, Header_Get_Set]⟩
          · exact ⟨[Event.roundTrip ⟨ctx, "POST", u.endpoint,
              (tracing ctx).Set "X-Api-Key" u.apiKey, jsonBytes⟩,
              Event.readAll response.Body.id, Event.close response.Body.id],
              by simp [umbrellaAPI.handleResponse, hs, hf, roundTrips, Header_Get_Set]⟩
        · exact ⟨[Event.roundTrip ⟨ctx, "POST", u.endpoint,
            (tracing ctx).Set "X-Api-Key" u.apiKey, jsonBytes⟩, Event.close response.Body.id],
            by simp [umbrellaAPI.handleResponse, hs, roundTrips, Header_Get_Set]⟩
      · exact ⟨[Event.roundTrip ⟨ctx, "POST", u.endpoint,
          (tracing ctx).Set "X-Api-Key" u.apiKey, jsonBytes⟩],
          by simp [roundTrips, Header_Get_Set]⟩
  · exact ⟨[], by simp [roundTrips]⟩

/-- Witness of C9: the example client against a server answering 200. -/
theorem FetchSuggestions_request_witness :
    ∃ events, ((exampleClient (serverAnswering 200 suggestionsBody)).FetchSuggestions exampleEnv
        exampleContext (some exampleContent) []).2 = [] ++ events ∧
      (roundTrips events).length ≤ 1 ∧
      (∀ request ∈ roundTrips events,
        request.Method = "POST" ∧ request.URL = exampleEndpoint ∧
        request.Header.Get "X-Api-Key" = "12345" ∧ request.Body = [123, 125] ∧
        request.ctx = exampleContext) ∧
      (exampleReject exampleContext "POST" exampleEndpoint = none →
        (exampleClient (serverAnswering 200 suggestionsBody)).httpClient ≠ none →
        (roundTrips events).length = 1) :=
  FetchSuggestions_request exampleEnv exampleReject exampleTracing
    (exampleClient (serverAnswering 200 suggestionsBody)) exampleContext (some exampleContent) []
    [123, 125] rfl rfl

/-! ## Release of the response body -/

/-- C10: whenever the transport answers with a response and no error,
FetchSuggestions returns (it does not panic), and among the events of the call
the body of that response is closed exactly once; the close is the last event
of the call. -/
theorem FetchSuggestions_closes_body_once (env : Env) (u : umbrellaAPI) (ctx : Context)
    (content : Option Content) (w : World) (jsonBytes : Bytes) (built : Request)
    (client : HttpClient) (response : Response)
    (hmarshal : env.Marshal content = (jsonBytes, none))
    (hbuild : env.NewHttpRequest ctx MethodPost u.endpoint jsonBytes = (some built, none))
    (hclient : u.httpClient = some client)
    (hdo : client.Do w { built with Header := built.Header.Set "X-Api-Key" u.apiKey }
      = (some response, none)) :
    ∃ value events, u.FetchSuggestions env ctx content w = (.returned value, w ++ events) ∧
      events.count (Event.close response.Body.id) = 1 ∧
      events.getLast? = some (Event.close response.Body.id) := by
  rw [FetchSuggestions_of_response env u ctx content w jsonBytes built client response
      hmarshal hbuild hclient hdo]
  by_cases hs : response.StatusCode = StatusOK
  · rcases hf : (ioutil.ReadAll response.Body).2 with _ | e
    · exact ⟨(some (ioutil.ReadAll response.Body).1, none),
        [Event.roundTrip { built with Header := built.Header.Set "X-Api-Key" u.apiKey },
          Event.readAll response.Body.id, Event.close response.Body.id],
        by simp [umbrellaAPI.handleResponse, hs, hf, List.count_cons]⟩
    · exact ⟨(none, some (errors.New
          ("Failed reading the response body from Suggestions Umbrella endpoint " ++
            fmt.verbError e))),
        [Event.roundTrip { built with Header := built.Header.Set "X-Api-Key" u.apiKey },
          Event.readAll response.Body.id, Event.close response.Body.id],
        by simp [umbrellaAPI.handleResponse, hs, hf, List.count_cons]⟩
  · exact ⟨(none, some (errors.New
        ("Suggestions Umbrella endpoint fails with response code: " ++
          fmt.verbInt response.StatusCode))),
      [Event.roundTrip { built with Header := built.Header.Set "X-Api-Key" u.apiKey },
        Event.close response.Body.id],
      by simp [umbrellaAPI.handleResponse, hs, List.count_cons]⟩

/-- Witness of C10: a status-200 body that fails while it is read is closed
once all the same. -/
theorem FetchSuggestions_closes_body_once_witness :
    ∃ value events, (exampleClient (serverAnswering 200 brokenBody)).FetchSuggestions exampleEnv
        exampleContext (some exampleContent) [] = (.returned value, [] ++ events) ∧
      events.count (Event.close 3) = 1 ∧
      events.getLast? = some (Event.close 3) :=
  FetchSuggestions_closes_body_once exampleEnv (exampleClient (serverAnswering 200 brokenBody))
    exampleContext (some exampleContent) [] [123, 125]
    ⟨exampleContext, "POST", exampleEndpoint, exampleTracing exampleContext, [123, 125]⟩
    (serverAnswering 200 brokenBody) ⟨200, brokenBody⟩ rfl rfl rfl rfl

end suggestions
